import Mathlib

/-!
Shallow embedding of the Bill-app backend (src/main.py), an "Order Assistant
Gateway" exposing three request handlers: a location resolver, a menu
extractor, and a conversational order agent.  External service calls
(the places lookup and the two language-model calls) are modelled as
`Except`-valued inputs, so that both their results and their failures can be
quantified over; Python exceptions raised by the handlers themselves
(`KeyError`, JSON decoding errors) are modelled with the same error type.
-/

namespace BillApp

/-- A Python exception, as observed by the handlers: a `KeyError` on a dict
lookup, a JSON decoding error from `json.loads`, or any exception raised by
an external client call (tagged with an arbitrary code so that distinct
failures can be told apart). -/
inductive PyErr where
  | keyError (k : String)
  | jsonError
  | externalError (code : Nat)
deriving DecidableEq, Repr

/-! ## Location Resolver (`identify_restaurant`, src/main.py lines 45-64) -/

/-- One candidate returned by the places lookup; `place.get('name')` and
`place.get('vicinity')` return `None` when the key is absent, hence
`Option`. -/
structure Place where
  name : Option String
  vicinity : Option String
deriving DecidableEq, Repr

/-- The places-lookup payload: `places_result['results']` is a list of
candidates. -/
structure PlacesResult where
  results : List Place
deriving DecidableEq, Repr

/-- The JSON object returned by `/identify-restaurant`. -/
structure RestaurantInfo where
  name : Option String
  address : Option String
deriving DecidableEq, Repr

/-- `identify_restaurant` (src/main.py lines 46-64), with the outcome of the
`gmaps.places_nearby` call passed in.  The `try`/`except` of the source is
the match on the `Except`: an exception yields the error sentinel, an empty
result list yields the plain sentinel, otherwise the first candidate's name
and vicinity are returned.  The return type is total: no error escapes. -/
def identify_restaurant (lookup : Except PyErr PlacesResult) : RestaurantInfo :=
  match lookup with
  | .error _ => { name := some "Unknown Location (Error)", address := some "N/A" }
  | .ok pr =>
    match pr.results with
    | [] => { name := some "Unknown Location", address := some "N/A" }
    | place :: _ => { name := place.name, address := place.vicinity }

/-! ## Menu Extractor (`scan_menu`, src/main.py lines 66-92) -/

/-- A JSON value, as produced by `json.loads` on the model's reply. -/
inductive JsonVal where
  | str (s : String)
  | num (n : Int)
  | arr (xs : List JsonVal)
  | obj (fields : List (String × JsonVal))

/-- The key-value pairs of the hardcoded fallback menu of `scan_menu`
(src/main.py line 92). -/
def menuFallbackFields : List (String × JsonVal) :=
  [("drinks", .arr [.str "Coke", .str "Water"]),
   ("entrees", .arr [.str "Burger", .str "Salad"])]

/-- The hardcoded fallback menu of `scan_menu` (src/main.py line 92):
`{"drinks": ["Coke", "Water"], "entrees": ["Burger", "Salad"]}`. -/
def menuFallback : JsonVal := .obj menuFallbackFields

/-- `scan_menu` (src/main.py lines 67-92), with the outcome of the
vision-model call (the reply content string) and the behaviour of
`json.loads` on strings passed in.  Both the model call and the parse sit
inside the source's `try`, so any error from either yields the fallback;
the return type is total: no error escapes. -/
def scan_menu (callResult : Except PyErr String)
    (json_loads : String → Except PyErr JsonVal) : JsonVal :=
  match callResult.bind json_loads with
  | .ok v => v
  | .error _ => menuFallback

/-! ## Conversational Order Agent (`chat_with_bill`, src/main.py lines 94-154) -/

/-- `tool.function` of a model tool call.  `arguments` is the `json.loads`
view of the arguments string: `none` models an arguments string that fails
to parse (in which case `json.loads` raises), `some d` the parsed JSON
object as an association list. -/
structure ToolFunction where
  name : String
  arguments : Option (List (String × String))
deriving DecidableEq, Repr

/-- One entry of `msg.tool_calls`. -/
structure ToolCall where
  id : String
  function : ToolFunction
deriving DecidableEq, Repr

/-- A model reply message: `msg.content` (possibly `None`) and
`msg.tool_calls`; the source tests `if msg.tool_calls:`, so `None` and the
empty list behave identically and both are modelled by `[]`. -/
structure ModelMessage where
  content : Option String
  tool_calls : List ToolCall
deriving DecidableEq, Repr

/-- An entry of the outbound `messages` list: a plain `role`/`content` dict,
the assistant message object appended verbatim on the tool path, or the
synthetic `role: "tool"` acknowledgment dict. -/
inductive Message where
  | simple (role content : String)
  | assistant (m : ModelMessage)
  | toolResult (tool_call_id content : String)
deriving DecidableEq, Repr

/-- The body of `POST /chat`.  `menu_json` stands for the serialized form
`json.dumps(request.menu_data)`, which is only ever interpolated into the
system prompt. -/
structure ChatRequest where
  user_message : String
  menu_json : String
  history : List (String × String)
  restaurant_name : String
  current_order : List String
deriving DecidableEq, Repr

/-- The JSON object returned by `/chat`. -/
structure ChatResponse where
  text : Option String
  updated_order : List String
deriving DecidableEq, Repr

/-- `current_order_str` (src/main.py line 114): comma-joined order, or
"Nothing yet" when the list is empty (falsy). -/
def current_order_str (order : List String) : String :=
  if order = [] then "Nothing yet" else String.intercalate ", " order

/-- The system prompt f-string (src/main.py lines 115-123). -/
def system_prompt (req : ChatRequest) : String :=
  "\n    You are Bill Clinton dining at " ++ req.restaurant_name ++
  ".\n    Current Tab: " ++ current_order_str req.current_order ++
  ".\n    Menu Data: " ++ req.menu_json ++
  "\n    \n    Persona: Raspy voice, southern charm, loves unhealthy food but pretends to diet." ++
  "\n    Rule: Keep responses SHORT (under 2 sentences)." ++
  "\n    If user wants to order, call the tool.\n    "

/-- The `messages` list sent to the first model call (src/main.py lines
125-127): the system prompt, then `request.history[-6:]` (the last six
turns, or all of them when there are at most six), then the new user
message. -/
def firstCallMessages (req : ChatRequest) : List Message :=
  Message.simple "system" (system_prompt req)
    :: (req.history.drop (req.history.length - 6)).map (fun t => Message.simple t.1 t.2)
    ++ [Message.simple "user" req.user_message]

/-- `json.loads(tool.function.arguments)` (src/main.py line 144): raises on
an unparseable arguments string. -/
def json_loads_args (tc : ToolCall) : Except PyErr (List (String × String)) :=
  match tc.function.arguments with
  | some d => .ok d
  | none => .error .jsonError

/-- `args[k]`: Python dict subscription, raising `KeyError` when the key is
absent. -/
def dictGet (d : List (String × String)) (k : String) : Except PyErr String :=
  match d.lookup k with
  | some v => .ok v
  | none => .error (.keyError k)

/-- One iteration of the tool loop (src/main.py lines 144-146): parse the
arguments, then run the two `if` statements in order — `"add"` appends the
item unconditionally; `"remove"` deletes the first matching occurrence when
the item is present (the `in` test short-circuits before `item_name` is
read for any other action). -/
def applyToolCall (order : List String) (tc : ToolCall) :
    Except PyErr (List String) := do
  let args ← json_loads_args tc
  let action ← dictGet args "action"
  let order1 ←
    if action = "add" then do
      let item ← dictGet args "item_name"
      pure (order ++ [item])
    else pure order
  if action = "remove" then do
    let item ← dictGet args "item_name"
    if item ∈ order1 then pure (order1.erase item) else pure order1
  else pure order1

/-- The `for tool in msg.tool_calls:` loop (src/main.py line 143): each
invocation is applied to the working copy in the order returned. -/
def applyToolCalls (order : List String) (tcs : List ToolCall) :
    Except PyErr (List String) :=
  tcs.foldlM applyToolCall order

/-- `chat_with_bill` (src/main.py lines 95-154), with the two
`client.chat.completions.create` calls passed in as functions of the
outbound message list.  There is no `try`/`except` in the source, so every
error — from either model call or from the tool loop — propagates.  On the
tool path the assistant message and one synthetic acknowledgment (carrying
`msg.tool_calls[0].id`) are appended before the second call, and the second
call's text is returned; otherwise the first call's text is returned with
the order copy untouched. -/
def chat_with_bill (req : ChatRequest)
    (call1 : List Message → Except PyErr ModelMessage)
    (call2 : List Message → Except PyErr ModelMessage) :
    Except PyErr ChatResponse := do
  let messages := firstCallMessages req
  let msg ← call1 messages
  match msg.tool_calls with
  | [] => pure { text := msg.content, updated_order := req.current_order }
  | tc :: rest => do
    let updated ← applyToolCalls req.current_order (tc :: rest)
    let messages2 := messages ++
      [Message.assistant msg, Message.toolResult tc.id "Order Updated."]
    let msg2 ← call2 messages2
    pure { text := msg2.content, updated_order := updated }

/-- The identifiers of the synthetic tool-result acknowledgments occurring
in a message list. -/
def ackIds : List Message → List String
  | [] => []
  | .toolResult i _ :: ms => i :: ackIds ms
  | .simple _ _ :: ms => ackIds ms
  | .assistant _ :: ms => ackIds ms

/-! ## Concrete sample data for exercising the handlers -/

/-- A sample chat request whose order already contains "Burger". -/
def sampleReq : ChatRequest :=
  { user_message := "One burger please"
    menu_json := "\x7b\x7d"
    history := [("user", "hi"), ("assistant", "well hello")]
    restaurant_name := "Rustic Diner"
    current_order := ["Fries", "Burger"] }

/-- The request of the end-to-end scenario: the order holds one "Fries". -/
def friesReq : ChatRequest :=
  { user_message := "Swap the fries for a burger"
    menu_json := "\x7b\x7d"
    history := []
    restaurant_name := "Rustic Diner"
    current_order := ["Fries"] }

/-- A request whose history has seven turns, one more than the six the
handler forwards. -/
def longHistoryReq : ChatRequest :=
  { user_message := "Anything good here"
    menu_json := "\x7b\x7d"
    history := [("user", "t1"), ("assistant", "t2"), ("user", "t3"),
                ("assistant", "t4"), ("user", "t5"), ("assistant", "t6"),
                ("user", "t7")]
    restaurant_name := "Rustic Diner"
    current_order := [] }

/-- A tool call adding "Burger". -/
def addBurgerCall : ToolCall :=
  { id := "call_1"
    function := { name := "update_order"
                  arguments := some [("action", "add"), ("item_name", "Burger")] } }

/-- A tool call removing "Fries". -/
def removeFriesCall : ToolCall :=
  { id := "call_2"
    function := { name := "update_order"
                  arguments := some [("action", "remove"), ("item_name", "Fries")] } }

/-- A tool call whose action is outside the declared enum. -/
def swapCall : ToolCall :=
  { id := "call_3"
    function := { name := "update_order"
                  arguments := some [("action", "swap"), ("item_name", "Cola")] } }

/-- A canned confirmation reply for the second model call. -/
def confirmMsg : ModelMessage := { content := some "Done, friend.", tool_calls := [] }

/-! ## Helper lemmas -/

/-- On the tool path the handler is the sequential composition: apply all
invocations to the order copy, then call the model a second time on the
first payload extended with the assistant message and the single
acknowledgment carrying the first invocation identifier. -/
theorem chat_tool_path_eq (req : ChatRequest) (c : Option String)
    (tc : ToolCall) (rest : List ToolCall)
    (call2 : List Message → Except PyErr ModelMessage) :
    chat_with_bill req (fun _ => .ok { content := c, tool_calls := tc :: rest }) call2 =
      (applyToolCalls req.current_order (tc :: rest)).bind fun updated =>
        (call2 (firstCallMessages req ++
            [Message.assistant { content := c, tool_calls := tc :: rest },
             Message.toolResult tc.id "Order Updated."])).bind fun msg2 =>
          .ok { text := msg2.content, updated_order := updated } := rfl

/-- Successful binds over `Except` reduce. -/
theorem except_ok_bind {α β ε : Type} (a : α) (f : α → Except ε β) :
    (Except.ok a : Except ε α) >>= f = f a := rfl

/-- Failed binds over `Except` short-circuit. -/
theorem except_error_bind {α β ε : Type} (e : ε) (f : α → Except ε β) :
    (Except.error e : Except ε α) >>= f = .error e := rfl

/-- `pure` over `Except` is `ok`. -/
theorem except_pure_eq_ok {α ε : Type} (a : α) :
    (pure a : Except ε α) = .ok a := rfl

/-- An "add" invocation with both keys present appends the item. -/
theorem applyToolCall_add (order : List String) (tid fname : String)
    (args : List (String × String)) (X : String)
    (hact : args.lookup "action" = some "add")
    (hitem : args.lookup "item_name" = some X) :
    applyToolCall order ⟨tid, ⟨fname, some args⟩⟩ = .ok (order ++ [X]) := by
  simp [applyToolCall, json_loads_args, dictGet, hact, hitem, except_ok_bind,
    except_error_bind, except_pure_eq_ok]

/-- A "remove" invocation with both keys present erases the first matching
occurrence (a no-op when the item is absent). -/
theorem applyToolCall_remove (order : List String) (tid fname : String)
    (args : List (String × String)) (Y : String)
    (hact : args.lookup "action" = some "remove")
    (hitem : args.lookup "item_name" = some Y) :
    applyToolCall order ⟨tid, ⟨fname, some args⟩⟩ = .ok (order.erase Y) := by
  by_cases hY : Y ∈ order
  · simp [applyToolCall, json_loads_args, dictGet, hact, hitem, hY, except_ok_bind,
      except_error_bind, except_pure_eq_ok]
  · simp [applyToolCall, json_loads_args, dictGet, hact, hitem, hY, except_ok_bind,
      except_error_bind, except_pure_eq_ok, List.erase_of_not_mem hY]

/-- An invocation whose action is neither "add" nor "remove" succeeds and
leaves the order unchanged. -/
theorem applyToolCall_other (order : List String) (tid fname : String)
    (args : List (String × String)) (a : String)
    (hact : args.lookup "action" = some a)
    (h1 : a ≠ "add") (h2 : a ≠ "remove") :
    applyToolCall order ⟨tid, ⟨fname, some args⟩⟩ = .ok order := by
  simp [applyToolCall, json_loads_args, dictGet, hact, h1, h2, except_ok_bind,
    except_error_bind, except_pure_eq_ok]

/-- A singleton tool loop is one application followed by `pure`. -/
theorem applyToolCalls_singleton (order : List String) (tc : ToolCall) :
    applyToolCalls order [tc] = (applyToolCall order tc).bind (fun o => .ok o) := rfl

/-- `ackIds` distributes over append. -/
theorem ackIds_append (a b : List Message) :
    ackIds (a ++ b) = ackIds a ++ ackIds b := by
  induction a with
  | nil => rfl
  | cons m ms ih => cases m <;> simp [ackIds, ih]

/-- History turns carry no acknowledgment identifiers. -/
theorem ackIds_map_simple (l : List (String × String)) :
    ackIds (l.map fun t => Message.simple t.1 t.2) = [] := by
  induction l with
  | nil => rfl
  | cons t ts ih => simpa [ackIds] using ih

/-- The first payload contains no acknowledgment identifiers. -/
theorem ackIds_firstCallMessages (req : ChatRequest) :
    ackIds (firstCallMessages req) = [] := by
  simp only [firstCallMessages, ackIds, List.append_eq, ackIds_append,
    ackIds_map_simple, List.append_nil, List.nil_append]

/-! ## Claim theorems -/

/-- Claim C1: when the first model response carries several tool
invocations, the handler applies every invocation to the working order copy
strictly in the returned order (the tool loop is a sequential fold, which
splits over concatenation), appends exactly one synthetic tool-result
acknowledgment to the conversation before the second call — carrying the
identifier of the first invocation only — and returns the second call
text. -/
theorem chat_multiple_invocations (req : ChatRequest) (c : Option String)
    (tc : ToolCall) (rest : List ToolCall)
    (call2 : List Message → Except PyErr ModelMessage) :
    chat_with_bill req (fun _ => .ok { content := c, tool_calls := tc :: rest }) call2 =
      ((applyToolCalls req.current_order (tc :: rest)).bind fun updated =>
        (call2 (firstCallMessages req ++
            [Message.assistant { content := c, tool_calls := tc :: rest },
             Message.toolResult tc.id "Order Updated."])).bind fun msg2 =>
          .ok { text := msg2.content, updated_order := updated }) ∧
    ackIds (firstCallMessages req ++
        [Message.assistant { content := c, tool_calls := tc :: rest },
         Message.toolResult tc.id "Order Updated."]) = [tc.id] ∧
    ∀ (order : List String) (l₁ l₂ : List ToolCall),
      applyToolCalls order (l₁ ++ l₂) =
        (applyToolCalls order l₁).bind fun o => applyToolCalls o l₂ := by
  refine ⟨chat_tool_path_eq req c tc rest call2, ?_, ?_⟩
  · rw [ackIds_append, ackIds_firstCallMessages]
    rfl
  · intro order l₁ l₂
    unfold applyToolCalls
    rw [List.foldlM_append]
    rfl

/-- Claim C2: with current order `["Fries"]` and a first response carrying
two invocations — add "Burger" then remove "Fries" — the handler returns
the order `["Burger"]`. -/
theorem chat_fries_burger_scenario :
    chat_with_bill friesReq
      (fun _ => .ok { content := none, tool_calls := [addBurgerCall, removeFriesCall] })
      (fun _ => .ok confirmMsg) =
      .ok { text := confirmMsg.content, updated_order := ["Burger"] } := rfl

/-- Claim C3: when the first response carries no tool invocations the
handler returns the first call text and the current order unchanged, for
every request and regardless of what a second call would return (none is
made: the result does not depend on `call2`). -/
theorem chat_no_invocations (req : ChatRequest) (c : Option String)
    (call2 : List Message → Except PyErr ModelMessage) :
    chat_with_bill req (fun _ => .ok { content := c, tool_calls := [] }) call2 =
      .ok { text := c, updated_order := req.current_order } := rfl

/-- Claim C4: a lone "add" invocation of item X appends X once at the end
of the order, unconditionally — the statement holds for every current
order, including those already containing X. -/
theorem chat_single_add (req : ChatRequest) (c : Option String)
    (tid fname : String) (args : List (String × String)) (X : String)
    (msg2 : ModelMessage)
    (hact : args.lookup "action" = some "add")
    (hitem : args.lookup "item_name" = some X) :
    chat_with_bill req
      (fun _ => .ok { content := c, tool_calls := [⟨tid, ⟨fname, some args⟩⟩] })
      (fun _ => .ok msg2) =
      .ok { text := msg2.content, updated_order := req.current_order ++ [X] } := by
  rw [chat_tool_path_eq, applyToolCalls_singleton,
    applyToolCall_add req.current_order tid fname args X hact hitem]
  rfl

/-- Witness for C4 at a concrete request whose order already contains
"Burger": the duplicate is appended. -/
theorem chat_single_add_witness :
    chat_with_bill sampleReq
      (fun _ => .ok { content := some "Adding it", tool_calls := [addBurgerCall] })
      (fun _ => .ok confirmMsg) =
      .ok { text := confirmMsg.content,
            updated_order := ["Fries", "Burger", "Burger"] } :=
  chat_single_add sampleReq (some "Adding it") "call_1" "update_order"
    [("action", "add"), ("item_name", "Burger")] "Burger" confirmMsg rfl rfl

/-- Claim C5: a lone "remove" invocation of item Y deletes the first
(leftmost) exact match of Y from the order: the result is `erase Y`, which
on a member drops exactly one occurrence (the leftmost), and on a
non-member is the identity. -/
theorem chat_single_remove (req : ChatRequest) (c : Option String)
    (tid fname : String) (args : List (String × String)) (Y : String)
    (msg2 : ModelMessage)
    (hact : args.lookup "action" = some "remove")
    (hitem : args.lookup "item_name" = some Y) :
    chat_with_bill req
      (fun _ => .ok { content := c, tool_calls := [⟨tid, ⟨fname, some args⟩⟩] })
      (fun _ => .ok msg2) =
      .ok { text := msg2.content, updated_order := req.current_order.erase Y } ∧
    (Y ∈ req.current_order →
      (req.current_order.erase Y).count Y + 1 = req.current_order.count Y) ∧
    (∀ l₁ l₂ : List String, req.current_order = l₁ ++ Y :: l₂ → Y ∉ l₁ →
      req.current_order.erase Y = l₁ ++ l₂) ∧
    (Y ∉ req.current_order → req.current_order.erase Y = req.current_order) := by
  refine ⟨?_, ?_, ?_, fun hY => List.erase_of_not_mem hY⟩
  · rw [chat_tool_path_eq, applyToolCalls_singleton,
      applyToolCall_remove req.current_order tid fname args Y hact hitem]
    rfl
  · intro hY
    have hpos : 0 < req.current_order.count Y := List.count_pos_iff.mpr hY
    rw [List.count_erase_self]
    omega
  · intro l₁ l₂ hsplit hnot
    rw [hsplit, List.erase_append_right _ hnot, List.erase_cons_head]

/-- Witness for C5 at a concrete request: removing "Fries" from
`["Fries", "Burger"]` yields `["Burger"]`. -/
theorem chat_single_remove_witness :
    chat_with_bill sampleReq
      (fun _ => .ok { content := none, tool_calls := [removeFriesCall] })
      (fun _ => .ok confirmMsg) =
      .ok { text := confirmMsg.content, updated_order := ["Burger"] } :=
  (chat_single_remove sampleReq none "call_2" "update_order"
    [("action", "remove"), ("item_name", "Fries")] "Fries" confirmMsg rfl rfl).1

/-- Claim C6: with a history of more than six turns, the first outbound
payload is exactly the system prompt, the last six history turns in order,
and the new user message — eight entries in all; any earlier turn (the
seventh-from-last included) that does not coincide with one of those
forwarded entries is absent from the payload. -/
theorem chat_history_truncation (req : ChatRequest) (h : 6 < req.history.length) :
    firstCallMessages req =
      Message.simple "system" (system_prompt req)
        :: (req.history.drop (req.history.length - 6)).map (fun t => Message.simple t.1 t.2)
        ++ [Message.simple "user" req.user_message] ∧
    (req.history.drop (req.history.length - 6)).length = 6 ∧
    req.history.take (req.history.length - 6) ++
      req.history.drop (req.history.length - 6) = req.history ∧
    (firstCallMessages req).length = 8 ∧
    ∀ t ∈ req.history.take (req.history.length - 6),
      Message.simple t.1 t.2 ∉
        (req.history.drop (req.history.length - 6)).map (fun u => Message.simple u.1 u.2) →
      Message.simple t.1 t.2 ≠ Message.simple "system" (system_prompt req) →
      Message.simple t.1 t.2 ≠ Message.simple "user" req.user_message →
      Message.simple t.1 t.2 ∉ firstCallMessages req := by
  refine ⟨rfl, ?_, List.take_append_drop _ _, ?_, ?_⟩
  · rw [List.length_drop]
    omega
  · simp only [firstCallMessages, List.length_cons, List.length_append,
      List.length_map, List.length_drop, List.length_nil]
    omega
  · intro t ht hnk hns hnu hmem
    simp only [firstCallMessages] at hmem
    rcases List.mem_cons.mp hmem with hcase | hcase
    · exact hns hcase
    · rcases List.mem_append.mp hcase with hcase | hcase
      · exact hnk hcase
      · exact hnu (List.mem_singleton.mp hcase)

/-- Witness for C6 at a seven-turn history: the payload has eight entries
and the dropped first turn is absent from it. -/
theorem chat_history_truncation_witness :
    (firstCallMessages longHistoryReq).length = 8 ∧
    Message.simple "user" "t1" ∉ firstCallMessages longHistoryReq :=
  ⟨(chat_history_truncation longHistoryReq (by decide)).2.2.2.1,
   (chat_history_truncation longHistoryReq (by decide)).2.2.2.2 ("user", "t1")
     (by decide) (by decide) (by decide) (by decide)⟩

/-- Claim C7: whenever the places lookup raises or yields zero candidates,
the location resolver returns a name starting with "Unknown Location"
(either the bare sentinel or its "(Error)"-suffixed form) and the address
"N/A"; its total return type surfaces no error to the caller. -/
theorem identify_restaurant_fail_soft (lookup : Except PyErr PlacesResult)
    (h : ∀ pr, lookup = .ok pr → pr.results = []) :
    ((identify_restaurant lookup).name = some "Unknown Location" ∨
      (identify_restaurant lookup).name = some ("Unknown Location" ++ " (Error)")) ∧
    (identify_restaurant lookup).address = some "N/A" := by
  match lookup with
  | .error e => exact ⟨Or.inr rfl, rfl⟩
  | .ok pr =>
    have hres := h pr rfl
    have hid : identify_restaurant (.ok pr) =
        { name := some "Unknown Location", address := some "N/A" } := by
      simp [identify_restaurant, hres]
    rw [hid]
    exact ⟨Or.inl rfl, rfl⟩

/-- Witness for C7 at a raised lookup and at an empty candidate list. -/
theorem identify_restaurant_fail_soft_witness :
    (identify_restaurant (.error (.externalError 7))).address = some "N/A" ∧
    (identify_restaurant (.ok { results := [] })).address = some "N/A" :=
  ⟨(identify_restaurant_fail_soft (.error (.externalError 7))
      (fun _ hpr => by cases hpr)).2,
   (identify_restaurant_fail_soft (.ok { results := [] })
      (fun pr hpr => by cases hpr; rfl)).2⟩

/-- Claim C8: whenever the extraction call raises or its output fails to
parse, the menu extractor returns exactly the fixed fallback object — two
hardcoded drinks and two hardcoded entrees, with no appetizers or sides
keys; its total return type surfaces no error to the caller. -/
theorem scan_menu_fail_soft (callResult : Except PyErr String)
    (json_loads : String → Except PyErr JsonVal) (e : PyErr)
    (h : callResult.bind json_loads = .error e) :
    scan_menu callResult json_loads = menuFallback ∧
    menuFallback = .obj menuFallbackFields ∧
    menuFallbackFields.lookup "drinks" = some (.arr [.str "Coke", .str "Water"]) ∧
    menuFallbackFields.lookup "entrees" = some (.arr [.str "Burger", .str "Salad"]) ∧
    menuFallbackFields.lookup "appetizers" = none ∧
    menuFallbackFields.lookup "sides" = none ∧
    menuFallbackFields.map Prod.fst = ["drinks", "entrees"] := by
  refine ⟨?_, rfl, rfl, rfl, rfl, rfl, rfl⟩
  unfold scan_menu
  rw [h]

/-- Witness for C8 at a raised extraction call. -/
theorem scan_menu_fail_soft_witness :
    scan_menu (.error (.externalError 3)) (fun _ => .error .jsonError) = menuFallback ∧
    menuFallback = .obj menuFallbackFields ∧
    menuFallbackFields.lookup "drinks" = some (.arr [.str "Coke", .str "Water"]) ∧
    menuFallbackFields.lookup "entrees" = some (.arr [.str "Burger", .str "Salad"]) ∧
    menuFallbackFields.lookup "appetizers" = none ∧
    menuFallbackFields.lookup "sides" = none ∧
    menuFallbackFields.map Prod.fst = ["drinks", "entrees"] :=
  scan_menu_fail_soft (.error (.externalError 3)) (fun _ => .error .jsonError)
    (.externalError 3) rfl

/-- Claim C9: the conversational order agent handles no exceptions of its
own: a failure of the first model call, and a failure of the second model
call on the tool path, each propagate out as the same error, with no
fallback result. -/
theorem chat_error_propagation :
    (∀ (req : ChatRequest) (e : PyErr) (call2 : List Message → Except PyErr ModelMessage),
      chat_with_bill req (fun _ => .error e) call2 = .error e) ∧
    (∀ (req : ChatRequest) (c : Option String) (tc : ToolCall) (rest : List ToolCall)
        (e : PyErr) (o : List String),
      applyToolCalls req.current_order (tc :: rest) = .ok o →
      chat_with_bill req (fun _ => .ok { content := c, tool_calls := tc :: rest })
        (fun _ => .error e) = .error e) := by
  constructor
  · intro req e call2
    rfl
  · intro req c tc rest e o ho
    rw [chat_tool_path_eq, ho]
    rfl

/-- Witness for C9: a failing second call surfaces its error. -/
theorem chat_error_propagation_witness :
    chat_with_bill sampleReq
      (fun _ => .ok { content := none, tool_calls := [addBurgerCall] })
      (fun _ => .error (.externalError 2)) = .error (.externalError 2) :=
  chat_error_propagation.2 sampleReq none addBurgerCall [] (.externalError 2)
    ["Fries", "Burger", "Burger"] rfl

/-- Claim C10: a tool invocation whose action is neither "add" nor "remove"
is silently ignored when its arguments carry both the action and item_name
keys: the handler raises no error and returns the order unchanged, as the
action value is never validated against the declared enum. -/
theorem chat_unknown_action_ignored (req : ChatRequest) (c : Option String)
    (tid fname : String) (args : List (String × String)) (a v : String)
    (msg2 : ModelMessage)
    (hact : args.lookup "action" = some a)
    (_hitem : args.lookup "item_name" = some v)
    (hadd : a ≠ "add") (hrem : a ≠ "remove") :
    chat_with_bill req
      (fun _ => .ok { content := c, tool_calls := [⟨tid, ⟨fname, some args⟩⟩] })
      (fun _ => .ok msg2) =
      .ok { text := msg2.content, updated_order := req.current_order } := by
  rw [chat_tool_path_eq, applyToolCalls_singleton,
    applyToolCall_other req.current_order tid fname args a hact hadd hrem]
  rfl

/-- Witness for C10 at a concrete "swap" invocation. -/
theorem chat_unknown_action_ignored_witness :
    chat_with_bill sampleReq
      (fun _ => .ok { content := none, tool_calls := [swapCall] })
      (fun _ => .ok confirmMsg) =
      .ok { text := confirmMsg.content, updated_order := ["Fries", "Burger"] } :=
  chat_unknown_action_ignored sampleReq none "call_3" "update_order"
    [("action", "swap"), ("item_name", "Cola")] "swap" "Cola" confirmMsg rfl rfl
    (by decide) (by decide)

end BillApp
